import Mathlib

/-!
Verification of the notes CRUD service (`src/app.py`).

The service stores Note documents in a MongoDB collection and exposes
seven HTTP handlers.  We embed the collection as a `List Note` (the
documents in storage order) and each MongoDB driver call
(`find_one`, `find(...).to_list(1000)`, `update_one` with `$set`,
`delete_one`) as a pure function on that list.  Identifiers and
timestamps are embedded as `Nat` (ObjectIds are opaque unique tokens;
datetimes are opaque totally ordered values — nothing in the code
computes with either beyond equality).

Each HTTP handler becomes a function from the store (and its request
inputs) to a `Response` paired with the store after the request.
-/

/-- A stored Note document (`NoteModel` in `src/app.py`): `_id`,
optional `created`/`updated` timestamps, required `text`, `author`,
`in_trash`. -/
structure Note where
  id : Nat
  created : Option Nat
  updated : Option Nat
  text : String
  author : String
  in_trash : Bool
deriving DecidableEq, Repr

/-- The MongoDB collection `db["notes"]`, in storage order. -/
abbrev NotesDB := List Note

/-- The body of a PUT request after pydantic parsing and `.dict()`
(`UpdateNoteModel` in `src/app.py`): every field is optional; `none`
is Python `None` (field omitted from the JSON body, or supplied as
JSON null — pydantic v1 `.dict()` yields `None` for both). -/
structure UpdateNoteModel where
  created : Option Nat
  updated : Option Nat
  text : Option String
  author : Option String
  in_trash : Option Bool
deriving DecidableEq, Repr

/-- The `UpdateNoteModel` whose fields are all `None`: the `.dict()` of
an empty (or all-null) JSON body. -/
def emptyUpdate : UpdateNoteModel :=
  { created := none, updated := none, text := none, author := none, in_trash := none }

/-- Number of keys left in `{k: v for k, v in note.dict().items() if v is not None}`:
the size of the sparse `$set` document built by `update_note`. -/
def sparseSize (u : UpdateNoteModel) : Nat :=
  (if u.created.isSome then 1 else 0) + (if u.updated.isSome then 1 else 0) +
  (if u.text.isSome then 1 else 0) + (if u.author.isSome then 1 else 0) +
  (if u.in_trash.isSome then 1 else 0)

/-- Effect of MongoDB `$set` with the sparse document `u` on one stored
document: each key present in `u` is overwritten, absent keys keep the
stored value.  `_id` is never part of an `UpdateNoteModel`, so it is
never touched. -/
def applySet (u : UpdateNoteModel) (n : Note) : Note :=
  { id := n.id
    created := match u.created with | some c => some c | none => n.created
    updated := match u.updated with | some t => some t | none => n.updated
    text := match u.text with | some t => t | none => n.text
    author := match u.author with | some a => a | none => n.author
    in_trash := match u.in_trash with | some b => b | none => n.in_trash }

/-- MongoDB `db["notes"].find_one({"_id": id})`: the first stored
document with that id, if any. -/
def find_one (s : NotesDB) (id : Nat) : Option Note :=
  s.find? (fun n => n.id == id)

/-- Result object of a MongoDB `update_one` call. -/
structure UpdateResult where
  matched_count : Nat
  modified_count : Nat
deriving DecidableEq, Repr

/-- MongoDB `db["notes"].update_one({"_id": id}, {"$set": u})`: rewrite
the first document with that id by `applySet u`; `modified_count` is 1
exactly when the rewrite actually changed the document. -/
def update_one : NotesDB → Nat → UpdateNoteModel → UpdateResult × NotesDB
  | [], _, _ => (⟨0, 0⟩, [])
  | n :: rest, id, u =>
    if n.id = id then
      let n2 := applySet u n
      (⟨1, if n2 = n then 0 else 1⟩, n2 :: rest)
    else
      let r := update_one rest id u
      (r.1, n :: r.2)

/-- MongoDB `db["notes"].delete_one({"_id": id})`: remove the first
document with that id; first component is `deleted_count`. -/
def delete_one : NotesDB → Nat → Nat × NotesDB
  | [], _ => (0, [])
  | n :: rest, id =>
    if n.id = id then (1, rest)
    else
      let r := delete_one rest id
      (r.1, n :: r.2)

/-- MongoDB `db["notes"].find({"in_trash": flag})`: all documents whose
`in_trash` equals `flag`, in storage order. -/
def mongoFindByTrash (s : NotesDB) (flag : Bool) : List Note :=
  s.filter (fun n => n.in_trash == flag)

/-- HTTP response of a handler: `ok` is a 200 with a Note body, `okList`
a 200 with a list body, `created` a 201, `noContent` a 204, and
`notFound id` the `HTTPException(404, "Note {id} not found")`. -/
inductive Response where
  | ok (note : Note)
  | okList (notes : List Note)
  | created (note : Note)
  | noContent
  | notFound (id : Nat)
deriving DecidableEq, Repr

/-- Body payload of a 200 list response (empty for other responses). -/
def Response.listPayload : Response → List Note
  | .okList l => l
  | _ => []

/-- Handler `GET /` (`list_all_notes`): `find({"in_trash": False}).to_list(1000)`. -/
def list_all_notes (s : NotesDB) : Response :=
  Response.okList ((mongoFindByTrash s false).take 1000)

/-- Handler `GET /in_trash` (`list_deleted_notes`): `find({"in_trash": True}).to_list(1000)`. -/
def list_deleted_notes (s : NotesDB) : Response :=
  Response.okList ((mongoFindByTrash s true).take 1000)

/-- Handler `GET /{id}` (`show_note`): 200 with the document, else 404.
Reading mutates nothing, so only the `Response` is returned. -/
def show_note (s : NotesDB) (id : Nat) : Response :=
  match find_one s id with
  | some note => Response.ok note
  | none => Response.notFound id

/-- Handler `PUT /{id}` (`update_note`).  The body dict is filtered to
its non-`None` entries; if at least one key remains the `$set` write is
issued, and when it reports `modified_count == 1` the re-fetched
document is returned.  All other paths fall through to re-fetching the
document by id: 200 with it if found, 404 otherwise. -/
def update_note (s : NotesDB) (id : Nat) (note : UpdateNoteModel) : Response × NotesDB :=
  if 1 ≤ sparseSize note then
    let r := update_one s id note
    if r.1.modified_count = 1 then
      match find_one r.2 id with
      | some updated_note => (Response.ok updated_note, r.2)
      | none =>
        match find_one r.2 id with
        | some existing_note => (Response.ok existing_note, r.2)
        | none => (Response.notFound id, r.2)
    else
      match find_one r.2 id with
      | some existing_note => (Response.ok existing_note, r.2)
      | none => (Response.notFound id, r.2)
  else
    match find_one s id with
    | some existing_note => (Response.ok existing_note, s)
    | none => (Response.notFound id, s)

/-- Python truthiness of `note["in_trash"]` in the trash handlers: the
value is `None`, `False` or `True`; only `True` is truthy. -/
def pyTruthy : Option Bool → Bool
  | none => false
  | some b => b

/-- The literal `$set` document `{"in_trash": True}` of `remove_note`. -/
def setInTrashTrue : UpdateNoteModel :=
  { emptyUpdate with in_trash := some true }

/-- The literal `$set` document `{"in_trash": False}` of `move_note`. -/
def setInTrashFalse : UpdateNoteModel :=
  { emptyUpdate with in_trash := some false }

/-- Handler `PUT /to_trash/{id}` (`remove_note`): if the caller-supplied
`in_trash` is not truthy, `$set {"in_trash": True}` and return the
re-fetched document (404 if the re-fetch finds nothing); otherwise 404
without touching storage. -/
def remove_note (s : NotesDB) (id : Nat) (note : UpdateNoteModel) : Response × NotesDB :=
  if !pyTruthy note.in_trash then
    let s2 := (update_one s id setInTrashTrue).2
    match find_one s2 id with
    | some updated_note => (Response.ok updated_note, s2)
    | none => (Response.notFound id, s2)
  else
    (Response.notFound id, s)

/-- Handler `PUT /from_trash/{id}` (`move_note`): same guard as
`remove_note`, but the write is `$set {"in_trash": False}`. -/
def move_note (s : NotesDB) (id : Nat) (note : UpdateNoteModel) : Response × NotesDB :=
  if !pyTruthy note.in_trash then
    let s2 := (update_one s id setInTrashFalse).2
    match find_one s2 id with
    | some updated_note => (Response.ok updated_note, s2)
    | none => (Response.notFound id, s2)
  else
    (Response.notFound id, s)

/-- Handler `DELETE /{id}` (`delete_note`): 204 iff `deleted_count == 1`,
else 404. -/
def delete_note (s : NotesDB) (id : Nat) : Response × NotesDB :=
  let r := delete_one s id
  if r.1 = 1 then (Response.noContent, r.2)
  else (Response.notFound id, r.2)

/-- One field of a raw JSON request body, before pydantic parsing:
absent from the body, explicit JSON null, or a value. -/
inductive JsonField (α : Type) where
  | absent
  | null
  | val (a : α)
deriving DecidableEq, Repr

/-- Pydantic v1 parsing of one optional field followed by `.dict()`:
both an absent field and an explicit null become Python `None`. -/
def JsonField.toDict {α : Type} : JsonField α → Option α
  | .absent => none
  | .null => none
  | .val a => some a

/-- A raw JSON body for `PUT /{id}`, field by field. -/
structure UpdateNoteBody where
  created : JsonField Nat
  updated : JsonField Nat
  text : JsonField String
  author : JsonField String
  in_trash : JsonField Bool
deriving DecidableEq, Repr

/-- `UpdateNoteModel(**body).dict()`: the pydantic model `update_note`
receives for a raw JSON body. -/
def UpdateNoteBody.toModel (b : UpdateNoteBody) : UpdateNoteModel :=
  { created := b.created.toDict
    updated := b.updated.toDict
    text := b.text.toDict
    author := b.author.toDict
    in_trash := b.in_trash.toDict }

/-- Replace every explicit-null field of a raw body by an absent one. -/
def UpdateNoteBody.nullToAbsent (b : UpdateNoteBody) : UpdateNoteBody :=
  { created := match b.created with | .null => .absent | f => f
    updated := match b.updated with | .null => .absent | f => f
    text := match b.text with | .null => .absent | f => f
    author := match b.author with | .null => .absent | f => f
    in_trash := match b.in_trash with | .null => .absent | f => f }

/-- Every field of the raw body is an explicit JSON null. -/
def UpdateNoteBody.allNull (b : UpdateNoteBody) : Prop :=
  b.created = .null ∧ b.updated = .null ∧ b.text = .null ∧
  b.author = .null ∧ b.in_trash = .null

instance (b : UpdateNoteBody) : Decidable b.allNull := by
  unfold UpdateNoteBody.allNull; infer_instance

/-- Handler `POST /` (`create_note`).  `startupTime` is the value of
`datetime.utcnow()` captured once when `class NoteModel` is executed at
import: the class-level default `created: Optional[datetime] = datetime.utcnow()`
is evaluated a single time per process, unlike `id`, whose
`Field(default_factory=PyObjectId)` runs per request.  `requestTime` is
the wall clock when the request arrives; the handler never reads it
(no per-request `utcnow()` call exists in `create_note`).  `freshId` is
the ObjectId minted by the `id` default factory.  The document is
inserted and then re-fetched by `inserted_id` for the 201 body. -/
def create_note (startupTime requestTime freshId : Nat)
    (created : JsonField Nat) (updated : JsonField Nat)
    (text author : String) (in_trash : Bool) (s : NotesDB) : Response × NotesDB :=
  let _ := requestTime
  let note : Note :=
    { id := freshId
      created := match created with
        | .absent => some startupTime
        | .null => none
        | .val c => some c
      updated := updated.toDict
      text := text
      author := author
      in_trash := in_trash }
  let s2 := s ++ [note]
  match find_one s2 freshId with
  | some created_note => (Response.created created_note, s2)
  | none => (Response.notFound freshId, s2)

/-! ### Basic lemmas about the embedded MongoDB operations -/

theorem applySet_id (u : UpdateNoteModel) (n : Note) : (applySet u n).id = n.id := rfl

theorem find_one_nil (id : Nat) : find_one [] id = none := rfl

theorem find_one_cons (n : Note) (rest : NotesDB) (id : Nat) :
    find_one (n :: rest) id = if n.id = id then some n else find_one rest id := by
  by_cases h : n.id = id <;> simp [find_one, List.find?_cons, h]

theorem find_one_mem {s : NotesDB} {id : Nat} {n : Note}
    (h : find_one s id = some n) : n ∈ s ∧ n.id = id := by
  unfold find_one at h
  refine ⟨List.mem_of_find?_eq_some h, ?_⟩
  have := List.find?_some h
  simpa using this

theorem find_one_eq_none {s : NotesDB} {id : Nat} :
    find_one s id = none ↔ ∀ n ∈ s, n.id ≠ id := by
  unfold find_one
  rw [List.find?_eq_none]
  simp

theorem update_one_find (s : NotesDB) (id : Nat) (u : UpdateNoteModel) :
    find_one (update_one s id u).2 id = (find_one s id).map (applySet u) := by
  induction s with
  | nil => rfl
  | cons n rest ih =>
    by_cases h : n.id = id
    · simp [update_one, h, find_one_cons, applySet_id]
    · simp [update_one, h, find_one_cons, ih]

theorem update_one_ids (s : NotesDB) (id : Nat) (u : UpdateNoteModel) :
    ((update_one s id u).2).map Note.id = s.map Note.id := by
  induction s with
  | nil => rfl
  | cons n rest ih =>
    by_cases h : n.id = id
    · simp [update_one, h, applySet_id]
    · simp [update_one, h, ih]

theorem update_one_of_none {s : NotesDB} {id : Nat} (u : UpdateNoteModel)
    (h : find_one s id = none) : update_one s id u = (⟨0, 0⟩, s) := by
  induction s with
  | nil => rfl
  | cons n rest ih =>
    rw [find_one_cons] at h
    by_cases hn : n.id = id
    · simp [hn] at h
    · simp [hn] at h
      simp [update_one, hn, ih h]

theorem update_one_modified_zero {s : NotesDB} {id : Nat} {u : UpdateNoteModel}
    (h : (update_one s id u).1.modified_count = 0) : (update_one s id u).2 = s := by
  induction s with
  | nil => rfl
  | cons n rest ih =>
    by_cases hn : n.id = id
    · by_cases he : applySet u n = n
      · simp [update_one, hn, he]
      · simp [update_one, hn, he] at h
    · simp [update_one, hn] at h ⊢
      exact ih h

theorem update_one_of_some_unchanged {s : NotesDB} {id : Nat} {u : UpdateNoteModel} {n : Note}
    (h : find_one s id = some n) (he : applySet u n = n) :
    update_one s id u = (⟨1, 0⟩, s) := by
  induction s with
  | nil => simp [find_one_nil] at h
  | cons m rest ih =>
    rw [find_one_cons] at h
    by_cases hm : m.id = id
    · simp [hm] at h
      subst h
      simp [update_one, hm, he]
    · simp [hm] at h
      simp [update_one, hm, ih h]

theorem update_one_modified_of_changed {s : NotesDB} {id : Nat} {u : UpdateNoteModel} {n : Note}
    (h : find_one s id = some n) (he : applySet u n ≠ n) :
    (update_one s id u).1 = ⟨1, 1⟩ := by
  induction s with
  | nil => simp [find_one_nil] at h
  | cons m rest ih =>
    rw [find_one_cons] at h
    by_cases hm : m.id = id
    · simp [hm] at h
      subst h
      simp [update_one, hm, he]
    · simp [hm] at h
      simp [update_one, hm, ih h]

theorem delete_one_of_none {s : NotesDB} {id : Nat}
    (h : find_one s id = none) : delete_one s id = (0, s) := by
  induction s with
  | nil => rfl
  | cons n rest ih =>
    rw [find_one_cons] at h
    by_cases hn : n.id = id
    · simp [hn] at h
    · simp [hn] at h
      simp [delete_one, hn, ih h]

theorem delete_one_count_of_some {s : NotesDB} {id : Nat} {n : Note}
    (h : find_one s id = some n) : (delete_one s id).1 = 1 := by
  induction s with
  | nil => simp [find_one_nil] at h
  | cons m rest ih =>
    rw [find_one_cons] at h
    by_cases hm : m.id = id
    · simp [delete_one, hm]
    · simp [hm] at h
      simp [delete_one, hm, ih h]

theorem delete_one_find_none {s : NotesDB} {id : Nat}
    (hnodup : (s.map Note.id).Nodup) :
    find_one (delete_one s id).2 id = none := by
  induction s with
  | nil => rfl
  | cons n rest ih =>
    simp only [List.map_cons, List.nodup_cons] at hnodup
    by_cases hn : n.id = id
    · simp only [delete_one, hn, if_pos rfl]
      rw [find_one_eq_none]
      intro m hm hmid
      apply hnodup.1
      rw [hn, ← hmid]
      exact List.mem_map_of_mem Note.id hm
    · simp [delete_one, hn, find_one_cons, ih hnodup.2]

/-! ### Characterisation of the `PUT /{id}` handler -/

theorem update_note_of_found {s : NotesDB} {id : Nat} {u : UpdateNoteModel} {n : Note}
    (h : 1 ≤ sparseSize u) (hn : find_one s id = some n) :
    update_note s id u = (Response.ok (applySet u n), (update_one s id u).2) := by
  unfold update_note
  rw [if_pos h]
  have hf : find_one (update_one s id u).2 id = some (applySet u n) := by
    rw [update_one_find, hn]; rfl
  by_cases hmod : (update_one s id u).1.modified_count = 1
  · simp [hmod, hf]
  · simp [hmod, hf]

theorem update_note_of_missing {s : NotesDB} {id : Nat} {u : UpdateNoteModel}
    (h : 1 ≤ sparseSize u) (hn : find_one s id = none) :
    update_note s id u = (Response.notFound id, s) := by
  have h0 := update_one_of_none u hn
  unfold update_note
  rw [if_pos h, h0]
  simp [hn]

/-! ### Claim theorems -/

/-- C1: for a non-empty sparse field set, `update_note` applies the
write; when the write reports zero modified documents the handler
re-fetches by id and returns the document unchanged with 200 if it
exists; and the handler answers 404 exactly when no document with that
id exists. -/
theorem C1_update_notfound_iff_absent (s : NotesDB) (id : Nat) (u : UpdateNoteModel)
    (h : 1 ≤ sparseSize u) :
    ((update_one s id u).1.modified_count = 0 →
      ∀ n, find_one s id = some n → update_note s id u = (Response.ok n, s))
    ∧ ((update_note s id u).1 = Response.notFound id ↔ find_one s id = none) := by
  constructor
  · intro hmod n hfind
    have heq : applySet u n = n := by
      by_contra hne
      have h1 := update_one_modified_of_changed hfind hne
      rw [h1] at hmod
      simp at hmod
    have hstate := update_one_modified_zero hmod
    rw [update_note_of_found h hfind, hstate, heq]
  · constructor
    · intro hnf
      cases hfind : find_one s id with
      | none => rfl
      | some n =>
        rw [update_note_of_found h hfind] at hnf
        simp at hnf
    · intro hnone
      rw [update_note_of_missing h hnone]

/-- Demonstration documents used by the witness theorems. -/
def demoNote : Note :=
  { id := 1, created := some 10, updated := none, text := "hi", author := "a", in_trash := false }

def demoTrashedNote : Note :=
  { id := 2, created := some 11, updated := none, text := "bye", author := "b", in_trash := true }

def demoState : NotesDB := [demoNote, demoTrashedNote]

def demoUpdate : UpdateNoteModel := { emptyUpdate with text := some "x" }

theorem C1_witness :
    1 ≤ sparseSize demoUpdate ∧
    (((update_one demoState 1 demoUpdate).1.modified_count = 0 →
        ∀ n, find_one demoState 1 = some n →
          update_note demoState 1 demoUpdate = (Response.ok n, demoState))
      ∧ ((update_note demoState 1 demoUpdate).1 = Response.notFound 1 ↔
          find_one demoState 1 = none)) :=
  ⟨by decide, C1_update_notfound_iff_absent demoState 1 demoUpdate (by decide)⟩

/-- C4: an empty sparse field set on an existing Note performs no write
(the stored collection is returned unchanged) and answers 200 with the
current document. -/
theorem C4_empty_update_noop (s : NotesDB) (id : Nat) (u : UpdateNoteModel) (n : Note)
    (h0 : sparseSize u = 0) (hfind : find_one s id = some n) :
    update_note s id u = (Response.ok n, s) := by
  unfold update_note
  rw [if_neg (by omega), hfind]

theorem C4_witness :
    sparseSize emptyUpdate = 0 ∧ find_one demoState 1 = some demoNote ∧
    update_note demoState 1 emptyUpdate = (Response.ok demoNote, demoState) :=
  ⟨by decide, by decide,
    C4_empty_update_noop demoState 1 emptyUpdate demoNote (by decide) (by decide)⟩

/-- C5: a non-empty update of an existing Note stores exactly
`applySet u n`, which overwrites precisely the fields present in the
sparse input and keeps every absent field (including the untouched
`_id`) at its prior stored value. -/
theorem C5_update_frame (s : NotesDB) (id : Nat) (u : UpdateNoteModel) (n : Note)
    (h : 1 ≤ sparseSize u) (hfind : find_one s id = some n) :
    find_one (update_note s id u).2 id = some (applySet u n)
    ∧ (applySet u n).id = n.id
    ∧ (u.created = none → (applySet u n).created = n.created)
    ∧ (∀ c, u.created = some c → (applySet u n).created = some c)
    ∧ (u.updated = none → (applySet u n).updated = n.updated)
    ∧ (∀ t, u.updated = some t → (applySet u n).updated = some t)
    ∧ (u.text = none → (applySet u n).text = n.text)
    ∧ (∀ t, u.text = some t → (applySet u n).text = t)
    ∧ (u.author = none → (applySet u n).author = n.author)
    ∧ (∀ a, u.author = some a → (applySet u n).author = a)
    ∧ (u.in_trash = none → (applySet u n).in_trash = n.in_trash)
    ∧ (∀ b, u.in_trash = some b → (applySet u n).in_trash = b) := by
  refine ⟨?_, rfl, ?_, ?_, ?_, ?_, ?_, ?_, ?_, ?_, ?_, ?_⟩
  · have hu : (update_note s id u).2 = (update_one s id u).2 :=
      congrArg Prod.snd (update_note_of_found h hfind)
    rw [hu, update_one_find, hfind]
    rfl
  all_goals intro hx
  all_goals first
    | simp [applySet, hx]
    | (intro hy; simp [applySet, hy])

theorem C5_witness :
    1 ≤ sparseSize demoUpdate ∧ find_one demoState 1 = some demoNote ∧
    (find_one (update_note demoState 1 demoUpdate).2 1 = some (applySet demoUpdate demoNote)
    ∧ (applySet demoUpdate demoNote).id = demoNote.id
    ∧ (demoUpdate.created = none → (applySet demoUpdate demoNote).created = demoNote.created)
    ∧ (∀ c, demoUpdate.created = some c → (applySet demoUpdate demoNote).created = some c)
    ∧ (demoUpdate.updated = none → (applySet demoUpdate demoNote).updated = demoNote.updated)
    ∧ (∀ t, demoUpdate.updated = some t → (applySet demoUpdate demoNote).updated = some t)
    ∧ (demoUpdate.text = none → (applySet demoUpdate demoNote).text = demoNote.text)
    ∧ (∀ t, demoUpdate.text = some t → (applySet demoUpdate demoNote).text = t)
    ∧ (demoUpdate.author = none → (applySet demoUpdate demoNote).author = demoNote.author)
    ∧ (∀ a, demoUpdate.author = some a → (applySet demoUpdate demoNote).author = a)
    ∧ (demoUpdate.in_trash = none → (applySet demoUpdate demoNote).in_trash = demoNote.in_trash)
    ∧ (∀ b, demoUpdate.in_trash = some b → (applySet demoUpdate demoNote).in_trash = b)) :=
  ⟨by decide, by decide,
    C5_update_frame demoState 1 demoUpdate demoNote (by decide) (by decide)⟩

/-! ### The trash/restore handlers -/

theorem pyTruthy_eq_false {o : Option Bool} (h : o ≠ some true) : pyTruthy o = false := by
  cases o with
  | none => rfl
  | some b =>
    cases b with
    | false => rfl
    | true => exact absurd rfl h

theorem applySet_trash_true (n : Note) :
    applySet setInTrashTrue n = { n with in_trash := true } := rfl

theorem applySet_trash_false (n : Note) :
    applySet setInTrashFalse n = { n with in_trash := false } := rfl

theorem remove_note_guard_true {s : NotesDB} {id : Nat} {u : UpdateNoteModel}
    (h : pyTruthy u.in_trash = true) :
    remove_note s id u = (Response.notFound id, s) := by
  unfold remove_note
  rw [h]
  rfl

theorem remove_note_guard_false {s : NotesDB} {id : Nat} {u : UpdateNoteModel}
    (h : pyTruthy u.in_trash = false) :
    remove_note s id u =
      (match find_one (update_one s id setInTrashTrue).2 id with
        | some updated_note => (Response.ok updated_note, (update_one s id setInTrashTrue).2)
        | none => (Response.notFound id, (update_one s id setInTrashTrue).2)) := by
  unfold remove_note
  rw [h]
  rfl

theorem move_note_guard_true {s : NotesDB} {id : Nat} {u : UpdateNoteModel}
    (h : pyTruthy u.in_trash = true) :
    move_note s id u = (Response.notFound id, s) := by
  unfold move_note
  rw [h]
  rfl

theorem move_note_guard_false {s : NotesDB} {id : Nat} {u : UpdateNoteModel}
    (h : pyTruthy u.in_trash = false) :
    move_note s id u =
      (match find_one (update_one s id setInTrashFalse).2 id with
        | some updated_note => (Response.ok updated_note, (update_one s id setInTrashFalse).2)
        | none => (Response.notFound id, (update_one s id setInTrashFalse).2)) := by
  unfold move_note
  rw [h]
  rfl

/-- C2: `remove_note` fails with 404 and writes nothing when the
caller-supplied `in_trash` flag is `true`; otherwise it stores
`in_trash := true` on the document with that id and returns the updated
Note, answering 404 exactly when no such document exists. -/
theorem C2_move_to_trash (s : NotesDB) (id : Nat) (u : UpdateNoteModel) :
    (u.in_trash = some true → remove_note s id u = (Response.notFound id, s))
    ∧ (u.in_trash ≠ some true → find_one s id = none →
        remove_note s id u = (Response.notFound id, s))
    ∧ (∀ n, u.in_trash ≠ some true → find_one s id = some n →
        (remove_note s id u).1 = Response.ok { n with in_trash := true }
        ∧ find_one (remove_note s id u).2 id = some { n with in_trash := true }) := by
  refine ⟨?_, ?_, ?_⟩
  · intro h
    exact remove_note_guard_true (by rw [h]; rfl)
  · intro h hn
    have h0 := update_one_of_none setInTrashTrue hn
    rw [remove_note_guard_false (pyTruthy_eq_false h), h0]
    simp [hn]
  · intro n h hn
    have hf : find_one (update_one s id setInTrashTrue).2 id
        = some { n with in_trash := true } := by
      rw [update_one_find, hn]
      rfl
    rw [remove_note_guard_false (pyTruthy_eq_false h), hf]
    exact ⟨rfl, hf⟩

theorem C2_witness :
    remove_note demoState 1 setInTrashTrue = (Response.notFound 1, demoState)
    ∧ ((remove_note demoState 1 setInTrashFalse).1
          = Response.ok { demoNote with in_trash := true }
        ∧ find_one (remove_note demoState 1 setInTrashFalse).2 1
          = some { demoNote with in_trash := true }) :=
  ⟨(C2_move_to_trash demoState 1 setInTrashTrue).1 rfl,
    (C2_move_to_trash demoState 1 setInTrashFalse).2.2 demoNote (by decide) (by decide)⟩

/-- C3: `move_note` (restore) fails with 404 and writes nothing when the
caller-supplied `in_trash` flag is `true`; otherwise it stores
`in_trash := false` on the document with that id and returns the updated
Note, answering 404 exactly when no such document exists. -/
theorem C3_restore_from_trash (s : NotesDB) (id : Nat) (u : UpdateNoteModel) :
    (u.in_trash = some true → move_note s id u = (Response.notFound id, s))
    ∧ (u.in_trash ≠ some true → find_one s id = none →
        move_note s id u = (Response.notFound id, s))
    ∧ (∀ n, u.in_trash ≠ some true → find_one s id = some n →
        (move_note s id u).1 = Response.ok { n with in_trash := false }
        ∧ find_one (move_note s id u).2 id = some { n with in_trash := false }) := by
  refine ⟨?_, ?_, ?_⟩
  · intro h
    exact move_note_guard_true (by rw [h]; rfl)
  · intro h hn
    have h0 := update_one_of_none setInTrashFalse hn
    rw [move_note_guard_false (pyTruthy_eq_false h), h0]
    simp [hn]
  · intro n h hn
    have hf : find_one (update_one s id setInTrashFalse).2 id
        = some { n with in_trash := false } := by
      rw [update_one_find, hn]
      rfl
    rw [move_note_guard_false (pyTruthy_eq_false h), hf]
    exact ⟨rfl, hf⟩

theorem C3_witness :
    move_note demoState 2 setInTrashTrue = (Response.notFound 2, demoState)
    ∧ ((move_note demoState 2 setInTrashFalse).1
          = Response.ok { demoTrashedNote with in_trash := false }
        ∧ find_one (move_note demoState 2 setInTrashFalse).2 2
          = some { demoTrashedNote with in_trash := false }) :=
  ⟨(C3_restore_from_trash demoState 2 setInTrashTrue).1 rfl,
    (C3_restore_from_trash demoState 2 setInTrashFalse).2.2 demoTrashedNote
      (by decide) (by decide)⟩

/-- C10: the `remove_note` guard reads only the caller-supplied flag:
with caller flag `false` it succeeds even on a document whose stored
`in_trash` is already `true` (returning it with `in_trash = true`, so
the operation is idempotent on the stored state), and a body whose
`in_trash` is `None` (omitted or null) behaves exactly like flag
`false`. -/
theorem C10_guard_reads_caller_flag (s : NotesDB) (id : Nat) (u : UpdateNoteModel) (n : Note) :
    (n.in_trash = true → u.in_trash = some false → find_one s id = some n →
      (remove_note s id u).1 = Response.ok { n with in_trash := true }
      ∧ find_one (remove_note s id u).2 id = some { n with in_trash := true })
    ∧ (u.in_trash = none →
        remove_note s id u = remove_note s id { u with in_trash := some false })
    ∧ (u.in_trash ≠ some true → find_one s id = some n →
        (remove_note (remove_note s id u).2 id u).2 = (remove_note s id u).2) := by
  refine ⟨?_, ?_, ?_⟩
  · intro _ hflag hn
    have hp : pyTruthy u.in_trash = false := by rw [hflag]; rfl
    have hf : find_one (update_one s id setInTrashTrue).2 id
        = some { n with in_trash := true } := by
      rw [update_one_find, hn]
      rfl
    rw [remove_note_guard_false hp, hf]
    exact ⟨rfl, hf⟩
  · intro hnone
    rw [remove_note_guard_false (by rw [hnone]; rfl),
      remove_note_guard_false (by rfl)]
  · intro h hn
    have hp := pyTruthy_eq_false h
    have hf : find_one (update_one s id setInTrashTrue).2 id
        = some { n with in_trash := true } := by
      rw [update_one_find, hn]
      rfl
    have hs2 : (remove_note s id u).2 = (update_one s id setInTrashTrue).2 := by
      rw [remove_note_guard_false hp, hf]
    rw [hs2, remove_note_guard_false hp (s := (update_one s id setInTrashTrue).2)]
    have hunch : applySet setInTrashTrue { n with in_trash := true }
        = { n with in_trash := true } := rfl
    have h1 := update_one_of_some_unchanged hf hunch
    rw [h1, hf]

theorem C10_witness :
    ((remove_note demoState 2 setInTrashFalse).1
        = Response.ok { demoTrashedNote with in_trash := true }
      ∧ find_one (remove_note demoState 2 setInTrashFalse).2 2
        = some { demoTrashedNote with in_trash := true })
    ∧ remove_note demoState 2 emptyUpdate
        = remove_note demoState 2 { emptyUpdate with in_trash := some false }
    ∧ (remove_note (remove_note demoState 2 setInTrashFalse).2 2 setInTrashFalse).2
        = (remove_note demoState 2 setInTrashFalse).2 :=
  ⟨(C10_guard_reads_caller_flag demoState 2 setInTrashFalse demoTrashedNote).1
      (by decide) rfl (by decide),
    (C10_guard_reads_caller_flag demoState 2 emptyUpdate demoTrashedNote).2.1 rfl,
    (C10_guard_reads_caller_flag demoState 2 setInTrashFalse demoTrashedNote).2.2
      (by decide) (by decide)⟩

/-! ### The delete handler -/

theorem delete_note_state (s : NotesDB) (id : Nat) :
    (delete_note s id).2 = (delete_one s id).2 := by
  unfold delete_note
  by_cases h : (delete_one s id).1 = 1 <;> simp [h]

/-- C7: `delete_note` answers 204 exactly when `deleted_count = 1`,
equivalently exactly when a document with that id exists; every failing
call answers 404; and after a successful delete, `show_note` on the
resulting store answers 404 for that id (the document is permanently
gone). -/
theorem C7_delete_then_get (s : NotesDB) (id : Nat)
    (hnodup : (s.map Note.id).Nodup) :
    ((delete_note s id).1 = Response.noContent ↔ (delete_one s id).1 = 1)
    ∧ ((delete_note s id).1 = Response.noContent ↔ (find_one s id).isSome = true)
    ∧ ((delete_note s id).1 ≠ Response.noContent →
        (delete_note s id).1 = Response.notFound id)
    ∧ ((delete_note s id).1 = Response.noContent →
        show_note (delete_note s id).2 id = Response.notFound id) := by
  have hcount : (delete_note s id).1 = Response.noContent ↔ (delete_one s id).1 = 1 := by
    unfold delete_note
    by_cases h : (delete_one s id).1 = 1 <;> simp [h]
  refine ⟨hcount, ?_, ?_, ?_⟩
  · rw [hcount]
    cases hfind : find_one s id with
    | none =>
      rw [delete_one_of_none hfind]
      simp
    | some n =>
      rw [delete_one_count_of_some hfind]
      simp
  · intro h
    unfold delete_note at h ⊢
    by_cases hc : (delete_one s id).1 = 1
    · simp [hc] at h
    · simp [hc]
  · intro _
    rw [delete_note_state]
    unfold show_note
    rw [delete_one_find_none hnodup]

theorem C7_witness :
    (List.map Note.id demoState).Nodup
    ∧ (((delete_note demoState 1).1 = Response.noContent ↔ (delete_one demoState 1).1 = 1)
      ∧ ((delete_note demoState 1).1 = Response.noContent ↔ (find_one demoState 1).isSome = true)
      ∧ ((delete_note demoState 1).1 ≠ Response.noContent →
          (delete_note demoState 1).1 = Response.notFound 1)
      ∧ ((delete_note demoState 1).1 = Response.noContent →
          show_note (delete_note demoState 1).2 1 = Response.notFound 1)) :=
  ⟨by decide, C7_delete_then_get demoState 1 (by decide)⟩

/-! ### The list handlers -/

/-- An active Note with id `i`, used to build a large store. -/
def mkActiveNote (i : Nat) : Note :=
  { id := i, created := none, updated := none, text := "", author := "", in_trash := false }

/-- A store holding 1001 active Notes: more than the `to_list(1000)` cap. -/
def bigState : NotesDB := (List.range 1001).map mkActiveNote

set_option maxRecDepth 8192

theorem bigState_active_payload :
    (list_all_notes bigState).listPayload = (List.range 1000).map mkActiveNote := by
  show (mongoFindByTrash bigState false).take 1000 = _
  unfold mongoFindByTrash bigState
  rw [List.filter_map]
  have hfil : List.filter ((fun n => n.in_trash == false) ∘ mkActiveNote) (List.range 1001)
      = List.range 1001 := by
    apply List.filter_eq_self.mpr
    intro a _
    rfl
  rw [hfil, ← List.map_take, List.take_range]
  norm_num

theorem bigState_trash_payload : (list_deleted_notes bigState).listPayload = [] := by
  show (mongoFindByTrash bigState true).take 1000 = _
  unfold mongoFindByTrash bigState
  have hfil : List.filter (fun n => n.in_trash == true) ((List.range 1001).map mkActiveNote)
      = [] := by
    rw [List.filter_eq_nil_iff]
    intro a ha
    obtain ⟨i, _, rfl⟩ := List.mem_map.mp ha
    simp [mkActiveNote]
  rw [hfil]
  rfl

/-- C6 counterexample: on a store of 1001 active Notes the two list
endpoints return only 1000 documents in total, so the union (by id) of
their results is strictly smaller than the stored dataset — the claim
as stated fails at `bigState`. -/
theorem C6_counterexample :
    ¬ ((∀ n ∈ (list_all_notes bigState).listPayload, n.in_trash = false)
      ∧ (∀ n ∈ (list_deleted_notes bigState).listPayload, n.in_trash = true)
      ∧ (list_all_notes bigState).listPayload.length ≤ 1000
      ∧ (list_deleted_notes bigState).listPayload.length ≤ 1000
      ∧ (∀ n ∈ bigState, ∃ m ∈ (list_all_notes bigState).listPayload ++
          (list_deleted_notes bigState).listPayload, m.id = n.id)
      ∧ (∀ a ∈ (list_all_notes bigState).listPayload,
          ∀ t ∈ (list_deleted_notes bigState).listPayload, a.id ≠ t.id)) := by
  intro hall
  have hmem : mkActiveNote 1000 ∈ bigState := by
    unfold bigState
    exact List.mem_map_of_mem _ (List.mem_range.mpr (by omega))
  obtain ⟨m, hm, hmid⟩ := hall.2.2.2.2.1 (mkActiveNote 1000) hmem
  rw [bigState_active_payload, bigState_trash_payload, List.append_nil] at hm
  obtain ⟨i, hi, rfl⟩ := List.mem_map.mp hm
  have hlt : i < 1000 := List.mem_range.mp hi
  have heq : i = 1000 := hmid
  omega

/-- C6 amended: the list endpoints classify exactly by `in_trash` and
are capped at 1000 each; provided ids are unique and neither class
exceeds the cap of 1000, the union of the two results (by id) is the
full stored dataset and their intersection is empty. -/
theorem C6_amended (s : NotesDB)
    (hnodup : (s.map Note.id).Nodup)
    (hact : (mongoFindByTrash s false).length ≤ 1000)
    (htr : (mongoFindByTrash s true).length ≤ 1000) :
    (∀ n ∈ (list_all_notes s).listPayload, n.in_trash = false)
    ∧ (∀ n ∈ (list_deleted_notes s).listPayload, n.in_trash = true)
    ∧ (list_all_notes s).listPayload.length ≤ 1000
    ∧ (list_deleted_notes s).listPayload.length ≤ 1000
    ∧ (∀ n ∈ s, ∃ m ∈ (list_all_notes s).listPayload ++
        (list_deleted_notes s).listPayload, m.id = n.id)
    ∧ (∀ m ∈ (list_all_notes s).listPayload ++ (list_deleted_notes s).listPayload,
        ∃ n ∈ s, n.id = m.id)
    ∧ (∀ a ∈ (list_all_notes s).listPayload,
        ∀ t ∈ (list_deleted_notes s).listPayload, a.id ≠ t.id) := by
  have hA : (list_all_notes s).listPayload = mongoFindByTrash s false := by
    show (mongoFindByTrash s false).take 1000 = _
    exact List.take_of_length_le hact
  have hT : (list_deleted_notes s).listPayload = mongoFindByTrash s true := by
    show (mongoFindByTrash s true).take 1000 = _
    exact List.take_of_length_le htr
  refine ⟨?_, ?_, ?_, ?_, ?_, ?_, ?_⟩
  · intro n hn
    rw [hA] at hn
    simpa using List.of_mem_filter hn
  · intro n hn
    rw [hT] at hn
    simpa using List.of_mem_filter hn
  · rw [hA]; exact hact
  · rw [hT]; exact htr
  · intro n hn
    refine ⟨n, ?_, rfl⟩
    rw [List.mem_append, hA, hT]
    cases hflag : n.in_trash
    · exact Or.inl (List.mem_filter.mpr ⟨hn, by simp [hflag]⟩)
    · exact Or.inr (List.mem_filter.mpr ⟨hn, by simp [hflag]⟩)
  · intro m hm
    rw [List.mem_append, hA, hT] at hm
    refine ⟨m, ?_, rfl⟩
    rcases hm with h | h
    · exact List.mem_of_mem_filter h
    · exact List.mem_of_mem_filter h
  · intro a ha t ht hid
    rw [hA] at ha
    rw [hT] at ht
    have haf : a.in_trash = false := by simpa using List.of_mem_filter ha
    have htf : t.in_trash = true := by simpa using List.of_mem_filter ht
    have hat : a = t :=
      List.inj_on_of_nodup_map hnodup (List.mem_of_mem_filter ha)
        (List.mem_of_mem_filter ht) hid
    rw [hat, htf] at haf
    simp at haf

theorem C6_witness :
    ((List.map Note.id demoState).Nodup
      ∧ (mongoFindByTrash demoState false).length ≤ 1000
      ∧ (mongoFindByTrash demoState true).length ≤ 1000)
    ∧ ((∀ n ∈ (list_all_notes demoState).listPayload, n.in_trash = false)
      ∧ (∀ n ∈ (list_deleted_notes demoState).listPayload, n.in_trash = true)
      ∧ (list_all_notes demoState).listPayload.length ≤ 1000
      ∧ (list_deleted_notes demoState).listPayload.length ≤ 1000
      ∧ (∀ n ∈ demoState, ∃ m ∈ (list_all_notes demoState).listPayload ++
          (list_deleted_notes demoState).listPayload, m.id = n.id)
      ∧ (∀ m ∈ (list_all_notes demoState).listPayload ++
          (list_deleted_notes demoState).listPayload, ∃ n ∈ demoState, n.id = m.id)
      ∧ (∀ a ∈ (list_all_notes demoState).listPayload,
          ∀ t ∈ (list_deleted_notes demoState).listPayload, a.id ≠ t.id)) :=
  ⟨⟨by decide, by decide, by decide⟩,
    C6_amended demoState (by decide) (by decide) (by decide)⟩

/-! ### The create handler and the `created` default -/

theorem find_one_append_single (s : NotesDB) (id : Nat) (n : Note)
    (h : find_one s id = none) (hn : n.id = id) :
    find_one (s ++ [n]) id = some n := by
  induction s with
  | nil =>
    show List.find? (fun m => m.id == id) [n] = some n
    simp [List.find?, hn]
  | cons m rest ih =>
    by_cases hm : m.id = id
    · rw [find_one_cons, if_pos hm] at h
      simp at h
    · rw [find_one_cons, if_neg hm] at h
      show find_one (m :: (rest ++ [n])) id = some n
      rw [find_one_cons, if_neg hm]
      exact ih h

/-- C8 counterexample: a process whose `class NoteModel` body ran at
time 0 serves a create request arriving at time 5 with no `created`
supplied; the persisted document carries `created = 0` (the import-time
default), not the request time 5 — the claim as stated fails on this
input. -/
theorem C8_counterexample :
    (create_note 0 5 7 JsonField.absent JsonField.absent "hi" "a" false []).1
      = Response.created
          { id := 7, created := some 0, updated := none,
            text := "hi", author := "a", in_trash := false }
    ∧ (some 0 : Option Nat) ≠ some 5 :=
  ⟨by decide, by decide⟩

/-- C8 amended: when the caller supplies no `created`, the persisted
Note's `created` is the single `datetime.utcnow()` value captured when
the `NoteModel` class body was executed at import — the same for every
creation in the process lifetime and independent of the request time. -/
theorem C8_created_default_is_import_time (startupTime requestTime freshId : Nat)
    (upd : JsonField Nat) (text author : String) (tr : Bool) (s : NotesDB)
    (hfresh : find_one s freshId = none) :
    (create_note startupTime requestTime freshId JsonField.absent upd text author tr s).1
      = Response.created
          { id := freshId, created := some startupTime, updated := upd.toDict,
            text := text, author := author, in_trash := tr } := by
  have hfind := find_one_append_single s freshId
    { id := freshId, created := some startupTime, updated := upd.toDict,
      text := text, author := author, in_trash := tr } hfresh rfl
  simp only [create_note]
  rw [hfind]

theorem C8_witness :
    find_one [] 7 = none ∧
    (create_note 3 9 7 JsonField.absent JsonField.absent "t" "a" false []).1
      = Response.created
          { id := 7, created := some 3, updated := JsonField.toDict JsonField.absent,
            text := "t", author := "a", in_trash := false } :=
  ⟨rfl, C8_created_default_is_import_time 3 9 7 JsonField.absent "t" "a" false [] rfl⟩

/-! ### Null fields in the update body -/

theorem update_note_state_empty {s : NotesDB} {id : Nat} {u : UpdateNoteModel}
    (h : ¬ 1 ≤ sparseSize u) : (update_note s id u).2 = s := by
  unfold update_note
  rw [if_neg h]
  split <;> rfl

theorem applySet_preserves_isSome (u : UpdateNoteModel) (n : Note) :
    (n.created.isSome → (applySet u n).created.isSome)
    ∧ (n.updated.isSome → (applySet u n).updated.isSome) := by
  constructor
  · intro h
    cases hc : u.created <;> simp [applySet, hc, h]
  · intro h
    cases hc : u.updated <;> simp [applySet, hc, h]

/-- C9: a field supplied as JSON null reaches `update_note` exactly like
an absent field (the `v is not None` filter removes both before the
write), a body whose fields are all null behaves as the empty update,
and no update can set a non-null stored `created`/`updated` back to
null. -/
theorem C9_null_behaves_as_absent (s : NotesDB) (id : Nat) (b : UpdateNoteBody) :
    update_note s id b.toModel = update_note s id b.nullToAbsent.toModel
    ∧ (b.allNull → update_note s id b.toModel = update_note s id emptyUpdate)
    ∧ (∀ n m, find_one s id = some n →
        find_one (update_note s id b.toModel).2 id = some m →
        (n.created.isSome → m.created.isSome) ∧ (n.updated.isSome → m.updated.isSome)) := by
  obtain ⟨c, u, t, a, i⟩ := b
  refine ⟨?_, ?_, ?_⟩
  · have hsame : (UpdateNoteBody.nullToAbsent ⟨c, u, t, a, i⟩).toModel
        = (UpdateNoteBody.mk c u t a i).toModel := by
      cases c <;> cases u <;> cases t <;> cases a <;> cases i <;> rfl
    rw [hsame]
  · intro hnull
    obtain ⟨hc, hu, ht, ha, hi⟩ := hnull
    subst hc
    subst hu
    subst ht
    subst ha
    subst hi
    rfl
  · intro n m hn hm
    by_cases hsz : 1 ≤ sparseSize (UpdateNoteBody.mk c u t a i).toModel
    · have h2 := congrArg Prod.snd (update_note_of_found hsz hn)
      rw [h2, update_one_find, hn] at hm
      have hm2 : some (applySet (UpdateNoteBody.mk c u t a i).toModel n) = some m := hm
      obtain rfl := Option.some.inj hm2
      exact applySet_preserves_isSome _ n
    · rw [update_note_state_empty hsz, hn] at hm
      obtain rfl : n = m := Option.some.inj hm
      exact ⟨fun h => h, fun h => h⟩

/-- The all-null raw body. -/
def demoNullBody : UpdateNoteBody :=
  { created := .null, updated := .null, text := .null, author := .null, in_trash := .null }

/-- A raw body supplying only `text`, with `created` an explicit null. -/
def demoTextBody : UpdateNoteBody :=
  { created := .null, updated := .absent, text := .val "x",
    author := .absent, in_trash := .absent }

theorem C9_witness :
    update_note demoState 1 demoNullBody.toModel
        = update_note demoState 1 demoNullBody.nullToAbsent.toModel
    ∧ update_note demoState 1 demoNullBody.toModel = update_note demoState 1 emptyUpdate
    ∧ ((demoNote.created.isSome → (applySet demoTextBody.toModel demoNote).created.isSome)
        ∧ (demoNote.updated.isSome → (applySet demoTextBody.toModel demoNote).updated.isSome)) :=
  ⟨(C9_null_behaves_as_absent demoState 1 demoNullBody).1,
    (C9_null_behaves_as_absent demoState 1 demoNullBody).2.1 (by decide),
    (C9_null_behaves_as_absent demoState 1 demoTextBody).2.2 demoNote
      (applySet demoTextBody.toModel demoNote) (by decide) (by decide)⟩
